import Mathlib

/-!
Verification of the goblin-forge candidate-scoring core.

The accumulation phase classifier is embedded from
`src/indicators/accumulation_analysis.py` (class `AccumulationAnalyzer`).
Tables are lists of bars carrying the two oscillator columns the analyzer
reads; a pandas NaN entry of a computed rolling column is `Option.none`.
Machine floats are modelled by `ℚ`: every constant the analyzer compares
against is a decimal literal and the inputs of interest are decimal, so no
rounding behaviour is lost on the claims below.

The SABR20 scoring engine (`src/screening/sabr20_engine.py`) and the
watchlist generator are not part of the sources here; the definitions for
them are modelled from the specification and from the behaviour fixed by
`tests/test_sabr20.py` and `tests/test_watchlist.py`, and are marked as such.
-/

namespace GoblinForge

/-- One bar of an indicator-augmented table: the two oscillator columns read
by `AccumulationAnalyzer` (`stoch_rsi` and `rsi`). -/
structure Bar where
  stoch_rsi : ℚ
  rsi : ℚ
deriving DecidableEq, Repr

/-- An input DataFrame as the analyzer sees it: presence flags for the two
required indicator columns, plus the row data. -/
structure Frame where
  hasStochRsi : Bool
  hasRsi : Bool
  rows : List Bar
deriving DecidableEq, Repr

/-- Configuration of `AccumulationAnalyzer.__init__`: the window and oversold
thresholds (`config.trading.indicators.accumulation`) and the flattened phase
tier table (`config.trading.sabr20.accumulation_phases`). -/
structure AnalyzerConfig where
  window : ℕ
  stoch_oversold : ℚ
  rsi_oversold : ℚ
  early_min_ratio : ℚ
  early_max_rsi : ℚ
  early_points : ℕ
  mid_min_ratio : ℚ
  mid_max_ratio : ℚ
  mid_max_rsi : ℚ
  mid_points : ℕ
  late_min_ratio : ℚ
  late_max_ratio : ℚ
  late_min_rsi : ℚ
  late_max_rsi : ℚ
  late_points : ℕ
  breakout_min_ratio : ℚ
  breakout_max_ratio : ℚ
  breakout_min_rsi : ℚ
  breakout_points : ℕ
deriving DecidableEq, Repr

/-- Modelled from the spec: the default configuration values documented in the
module docstring of `accumulation_analysis.py` and exercised by
`tests/test_accumulation.py` (the configuration loader itself is not among the
sources): window 50, stoch oversold 20, rsi oversold 30; early ratio > 5 and
rsi < 45 for 18 points, mid ratio 3-5 and rsi < 50 for 14 points, late ratio
1.5-3 and rsi 40-55 for 10 points, breakout ratio 0.8-1.5 and rsi > 50 for 6
points. -/
def defaultConfig : AnalyzerConfig :=
  ⟨50, 20, 30, 5, 45, 18, 3, 5, 50, 14, 3/2, 3, 40, 55, 10, 4/5, 3/2, 50, 6⟩

/-- The `(df['stoch_rsi'] < self.stoch_oversold).astype(int)` flag of one bar. -/
def stochFlag (threshold : ℚ) (b : Bar) : ℕ :=
  if b.stoch_rsi < threshold then 1 else 0

/-- The `(df['rsi'] < self.rsi_oversold).astype(int)` flag of one bar. -/
def rsiFlag (threshold : ℚ) (b : Bar) : ℕ :=
  if b.rsi < threshold then 1 else 0

/-- Pandas `Series.rolling(window, min_periods=window // 2).sum()` at index
`i` over a series with no NaN entries: the sum of the trailing window of
width `window` truncated at the start of the series, defined (non-NaN)
exactly when the number of observations in the window, `min (i+1) window`,
reaches `window / 2`. -/
def rollingSum (window : ℕ) (xs : List ℕ) (i : ℕ) : Option ℕ :=
  if window / 2 ≤ min (i + 1) window then
    some (((xs.take (i + 1)).drop (i + 1 - window)).sum)
  else none

/-- The `stoch_signals` column of `calculate_ratio_series` at index `i`. -/
def stochSignalsAt (cfg : AnalyzerConfig) (window : ℕ) (rows : List Bar) (i : ℕ) : Option ℕ :=
  rollingSum window (rows.map (stochFlag cfg.stoch_oversold)) i

/-- The `rsi_signals` column of `calculate_ratio_series` at index `i`. -/
def rsiSignalsAt (cfg : AnalyzerConfig) (window : ℕ) (rows : List Bar) (i : ℕ) : Option ℕ :=
  rollingSum window (rows.map (rsiFlag cfg.rsi_oversold)) i

/-- Pandas `.clip(0, 20)` on one value. -/
def clip0to20 (x : ℚ) : ℚ := min (max x 0) 20

/-- The `accumulation_ratio` column at index `i`:
`stoch_signals / rsi_signals.replace(0, 0.1)`, then the both-zero rows are
set to 0, then `.clip(0, 20)`; NaN (an undefined rolling count) propagates. -/
def accumulationRatioAt (cfg : AnalyzerConfig) (window : ℕ) (rows : List Bar) (i : ℕ) :
    Option ℚ :=
  match stochSignalsAt cfg window rows i, rsiSignalsAt cfg window rows i with
  | some s, some r =>
      let denom : ℚ := if (r : ℚ) = 0 then 1 / 10 else (r : ℚ)
      let forced : ℚ := if s = 0 ∧ r = 0 then 0 else (s : ℚ) / denom
      some (clip0to20 forced)
  | _, _ => none

/-- The DataFrame returned by `calculate_ratio_series`: the input rows plus
the three added columns (entries are `none` where pandas leaves NaN). -/
structure RatioFrame where
  rows : List Bar
  stoch_signals : List (Option ℕ)
  rsi_signals : List (Option ℕ)
  accumulation_ratio : List (Option ℚ)
deriving DecidableEq, Repr

/-- The set difference `set(['stoch_rsi', 'rsi']) - set(df.columns)`, as a
list of column names. -/
def missingCols (f : Frame) : List String :=
  (if f.hasStochRsi then [] else ["stoch_rsi"]) ++ (if f.hasRsi then [] else ["rsi"])

/-- `AccumulationAnalyzer.calculate_ratio_series(df, window)`: validates the
required columns and raises `ValueError` naming the missing ones (the
`except` clause of the method logs and re-raises, so the error escapes,
modelled by `Except.error`); otherwise returns the input frame augmented
with the three computed columns. `window = none` selects the configured
default window. -/
def calculate_ratio_series (cfg : AnalyzerConfig) (f : Frame) (window : Option ℕ) :
    Except (List String) RatioFrame :=
  let w := window.getD cfg.window
  if missingCols f = [] then
    Except.ok
      { rows := f.rows
        stoch_signals := (List.range f.rows.length).map (stochSignalsAt cfg w f.rows)
        rsi_signals := (List.range f.rows.length).map (rsiSignalsAt cfg w f.rows)
        accumulation_ratio := (List.range f.rows.length).map (accumulationRatioAt cfg w f.rows) }
  else Except.error (missingCols f)

/-- The result record of `AccumulationAnalyzer.classify_phase`. -/
structure PhaseInfo where
  phase : String
  points : ℕ
  description : String
deriving DecidableEq, Repr

/-- `AccumulationAnalyzer.classify_phase(ratio, rsi)`: the four tier guards
tried in source order, first match wins, else the `none` phase with 0
points. -/
def classify_phase (cfg : AnalyzerConfig) (ratio rsi : ℚ) : PhaseInfo :=
  if cfg.early_min_ratio ≤ ratio ∧ rsi ≤ cfg.early_max_rsi then
    ⟨"early", cfg.early_points, "Early Accumulation - Best Entry"⟩
  else if cfg.mid_min_ratio ≤ ratio ∧ ratio < cfg.mid_max_ratio ∧ rsi ≤ cfg.mid_max_rsi then
    ⟨"mid", cfg.mid_points, "Mid Accumulation - High Probability"⟩
  else if cfg.late_min_ratio ≤ ratio ∧ ratio < cfg.late_max_ratio ∧
      cfg.late_min_rsi ≤ rsi ∧ rsi ≤ cfg.late_max_rsi then
    ⟨"late", cfg.late_points, "Late Accumulation - Setup Maturing"⟩
  else if cfg.breakout_min_ratio ≤ ratio ∧ ratio < cfg.breakout_max_ratio ∧
      cfg.breakout_min_rsi ≤ rsi then
    ⟨"breakout", cfg.breakout_points, "Breakout - Confirmed but Late"⟩
  else
    ⟨"none", 0, "No Accumulation Detected"⟩

/-- The result dict of `AccumulationAnalyzer.analyze`. -/
structure AnalysisResult where
  phase : String
  ratio : ℚ
  points : ℕ
  description : String
  stoch_signals : ℕ
  rsi_signals : ℕ
  rsi : ℚ
  history : List (Option ℚ)
deriving DecidableEq, Repr

/-- `AccumulationAnalyzer._empty_result()`: the neutral default. -/
def emptyResult : AnalysisResult :=
  ⟨"none", 0, 0, "Insufficient Data", 0, 0, 50, []⟩

/-- `AccumulationAnalyzer.analyze(df)`: `none` input stands for a `None`
DataFrame. The method returns the neutral default when the input is
None/empty or lacks a required column; when the rolling counts of the latest
bar are NaN, the `int(...)` conversions in the result dict raise and the
surrounding `except` returns the neutral default as well; otherwise it
classifies the latest bar of the ratio series. -/
def analyze (cfg : AnalyzerConfig) (df : Option Frame) : AnalysisResult :=
  match df with
  | none => emptyResult
  | some f =>
    if f.rows.isEmpty then emptyResult
    else if f.hasStochRsi && f.hasRsi then
      let n := f.rows.length
      match stochSignalsAt cfg cfg.window f.rows (n - 1),
          rsiSignalsAt cfg cfg.window f.rows (n - 1),
          accumulationRatioAt cfg cfg.window f.rows (n - 1) with
      | some s, some r, some v =>
        let rsiLast := ((f.rows.getLast?).getD ⟨0, 0⟩).rsi
        let ph := classify_phase cfg v rsiLast
        { phase := ph.phase
          ratio := v
          points := ph.points
          description := ph.description
          stoch_signals := s
          rsi_signals := r
          rsi := rsiLast
          history := ((List.range n).map (accumulationRatioAt cfg cfg.window f.rows)).drop
            (n - 10) }
      | _, _, _ => emptyResult
    else emptyResult

/-- The loop body of `AccumulationAnalyzer.batch_analyze`, abstracted over the
per-symbol outcome: `analyzeOutcome df = none` stands for `analyze` raising
on that symbol, in which case the `except` branch stores the neutral default;
otherwise the returned result is stored. Iteration follows dict insertion
order. -/
def batch_analyze_with (analyzeOutcome : Option Frame → Option AnalysisResult)
    (data : List (String × Option Frame)) : List (String × AnalysisResult) :=
  data.map (fun p => (p.1, (analyzeOutcome p.2).getD emptyResult))

/-- `AccumulationAnalyzer.batch_analyze(data_dict)`: in this embedding
`analyze` is total, so every per-symbol outcome is a success. -/
def batch_analyze (cfg : AnalyzerConfig) (data : List (String × Option Frame)) :
    List (String × AnalysisResult) :=
  batch_analyze_with (fun df => some (analyze cfg df)) data

/-- Modelled from the spec: the `SABR20Score` record of §3 (its source,
`src/screening/sabr20_engine.py`, is not among the sources; its behaviour is
fixed by `tests/test_sabr20.py`): symbol, total points and the named
component scores. -/
structure SABR20Score where
  symbol : String
  total_points : ℚ
  component_scores : List (String × ℚ) := []
deriving DecidableEq, Repr

/-- Modelled from the spec: the `setup_grade` of a `SABR20Score`, assigned by
the closed-lower-bound bands of §4.3: [80,100] Excellent, [65,80) Strong,
[50,65) Good, else Weak. -/
def setup_grade (s : SABR20Score) : String :=
  if 80 ≤ s.total_points then "Excellent"
  else if 65 ≤ s.total_points then "Strong"
  else if 50 ≤ s.total_points then "Good"
  else "Weak"

/-- Modelled from the spec: the BB-position tier of component 1 (§4.2 row 1):
at most 10% scores 10, at most 20% scores 7, at most 30% scores 4, else 0. -/
def bbPoints (bb_position : ℚ) : ℕ :=
  if bb_position ≤ 1 / 10 then 10
  else if bb_position ≤ 2 / 10 then 7
  else if bb_position ≤ 3 / 10 then 4
  else 0

/-- Modelled from the spec: the Stoch-RSI tier of component 1 (§4.2 row 1):
below 10 scores 10, in [10,15) scores 7, in [15,20) scores 4, else 0; the
top-tier boundary is exclusive. -/
def stochPoints (stoch_rsi : ℚ) : ℕ :=
  if stoch_rsi < 10 then 10
  else if stoch_rsi < 15 then 7
  else if stoch_rsi < 20 then 4
  else 0

/-- Modelled from the spec: component 1 Setup Strength on the latest bar's
values; a missing or NaN value (`none`) contributes 0 to its sub-score only
(§4.2: missing/None/empty/NaN yields 0 for the affected sub-score only). -/
def component_1_setup_strength (bb_position stoch_rsi : Option ℚ) : ℕ :=
  (bb_position.map bbPoints).getD 0 + (stoch_rsi.map stochPoints).getD 0

/-- Modelled from the spec: the outcome of `score_candidate` for one symbol
(§4.5): a Score, `None` ("could not evaluate"), or a raised exception. -/
inductive ScoreOutcome where
  | ok : Option SABR20Score → ScoreOutcome
  | raised : String → ScoreOutcome
deriving DecidableEq, Repr

/-- Modelled from the spec: what the batch scorer collects from one worker
(§4.6): a worker exception is contained and treated as that symbol's result
being `None`. -/
def collectOutcome : ScoreOutcome → Option SABR20Score
  | .ok r => r
  | .raised _ => none

/-- Modelled from the spec: `score_candidates_parallel` (§4.6): dispatches
`score_candidate` per symbol onto a worker pool and returns only the
non-None Scores; the worker count affects scheduling only, never which
per-symbol outcomes are collected, and collection order (completion order,
arbitrary per §5) is modelled as input order. -/
def score_candidates_parallel (score_candidate : String → ScoreOutcome)
    (symbols : List String) (max_workers : ℕ) : List SABR20Score :=
  symbols.filterMap (fun sym => collectOutcome (score_candidate sym))

/-- Modelled from the spec: stable insertion of a Score into a list already
sorted descending by `total_points` (Python `sorted(..., reverse=True)` is
stable, so an earlier element goes before an equal-keyed later one). -/
def insertDesc (s : SABR20Score) : List SABR20Score → List SABR20Score
  | [] => [s]
  | t :: ts => if t.total_points ≤ s.total_points then s :: t :: ts else t :: insertDesc s ts

/-- Modelled from the spec: the descending stable sort of §4.7 step 5. -/
def sortDesc : List SABR20Score → List SABR20Score
  | [] => []
  | x :: xs => insertDesc x (sortDesc xs)

/-- Modelled from the spec: steps 4-6 of `generate` (§4.7) applied to the
Scores produced by the parallel-scoring stage (`scored`): drop Scores below
`min_score`, sort descending by `total_points`, truncate to `max_symbols`.
Stages 1-3 (universe, coarse filter, scoring) only determine `scored`. -/
def generate (scored : List SABR20Score) (max_symbols : ℕ) (min_score : ℚ) :
    List SABR20Score :=
  (sortDesc (scored.filter (fun s => min_score ≤ s.total_points))).take max_symbols

/-- Modelled from the spec: the mocked `score_candidate` of the parallel-batch
test: symbol `B`'s loader raises, every other symbol scores 70 points. -/
def demoScorer : String → ScoreOutcome := fun sym =>
  if sym = "B" then ScoreOutcome.raised "Scoring error"
  else ScoreOutcome.ok (some ⟨sym, 70, []⟩)

/-- The ratio frame `calculate_ratio_series` returns on the one-bar table with
`stoch_rsi = 50`, `rsi = 10` and window 2. -/
def cexRatioFrame : RatioFrame :=
  ⟨[⟨50, 10⟩], [some 0], [some 1], [some 0]⟩

/-- The default configuration with the lookback window shortened to 2 bars,
for concrete evaluations on one-bar tables. -/
def smallConfig : AnalyzerConfig :=
  ⟨2, 20, 30, 5, 45, 18, 3, 5, 50, 14, 3/2, 3, 40, 55, 10, 4/5, 3/2, 50, 6⟩

/-!  Theorems. -/

/-- Concrete evaluation: `calculate_ratio_series` on the one-bar table with
`stoch_rsi = 50`, `rsi = 10` and window 2 yields `cexRatioFrame`. -/
theorem cex_calc_eq :
    calculate_ratio_series defaultConfig ⟨true, true, [⟨50, 10⟩]⟩ (some 2) =
      Except.ok cexRatioFrame := by
  norm_num [calculate_ratio_series, missingCols, cexRatioFrame, accumulationRatioAt,
    stochSignalsAt, rsiSignalsAt, rollingSum, stochFlag, rsiFlag, clip0to20, defaultConfig,
    List.range_succ]

/-- Claim C10: `calculate_ratio_series`, unlike `analyze`, propagates failure:
for every input table lacking the `stoch_rsi` or `rsi` column it raises a
`ValueError` naming exactly the missing columns (the internal exception
handler logs and re-raises rather than returning a default). -/
theorem claim_C10 (cfg : AnalyzerConfig) (f : Frame) (window : Option ℕ)
    (h : f.hasStochRsi = false ∨ f.hasRsi = false) :
    calculate_ratio_series cfg f window = Except.error (missingCols f) ∧
    ("stoch_rsi" ∈ missingCols f ↔ f.hasStochRsi = false) ∧
    ("rsi" ∈ missingCols f ↔ f.hasRsi = false) := by
  have hne : ¬ missingCols f = [] := by
    rcases h with h | h <;>
      · cases hs : f.hasStochRsi <;> cases hr : f.hasRsi <;>
          simp_all [missingCols]
  refine ⟨?_, ?_, ?_⟩
  · unfold calculate_ratio_series
    simp [hne]
  · cases hs : f.hasStochRsi <;> cases hr : f.hasRsi <;> simp [missingCols, hs, hr]
  · cases hs : f.hasStochRsi <;> cases hr : f.hasRsi <;> simp [missingCols, hs, hr]

/-- Witness for C10 at a concrete frame missing both columns. -/
theorem claim_C10_witness :
    calculate_ratio_series defaultConfig ⟨false, false, []⟩ none =
      Except.error (missingCols ⟨false, false, []⟩) ∧
    ("stoch_rsi" ∈ missingCols (⟨false, false, []⟩ : Frame) ↔ True) ∧
    ("rsi" ∈ missingCols (⟨false, false, []⟩ : Frame) ↔ True) := by
  have h := claim_C10 defaultConfig ⟨false, false, []⟩ none (Or.inl rfl)
  exact ⟨h.1, by simpa using h.2.1, by simpa using h.2.2⟩

/-- Claim C5: `classify_phase` tries the tiers in the fixed order early, mid,
late, breakout and returns the first tier whose ratio range and RSI bound
both hold, with that tier's fixed point value (18, 14, 10, 6); when no tier
matches it returns phase `none` with 0 points. -/
theorem claim_C5 (ratio rsi : ℚ) :
    ((5 ≤ ratio ∧ rsi ≤ 45) →
      classify_phase defaultConfig ratio rsi =
        ⟨"early", 18, "Early Accumulation - Best Entry"⟩) ∧
    (¬(5 ≤ ratio ∧ rsi ≤ 45) → (3 ≤ ratio ∧ ratio < 5 ∧ rsi ≤ 50) →
      classify_phase defaultConfig ratio rsi =
        ⟨"mid", 14, "Mid Accumulation - High Probability"⟩) ∧
    (¬(5 ≤ ratio ∧ rsi ≤ 45) → ¬(3 ≤ ratio ∧ ratio < 5 ∧ rsi ≤ 50) →
      (3/2 ≤ ratio ∧ ratio < 3 ∧ 40 ≤ rsi ∧ rsi ≤ 55) →
      classify_phase defaultConfig ratio rsi =
        ⟨"late", 10, "Late Accumulation - Setup Maturing"⟩) ∧
    (¬(5 ≤ ratio ∧ rsi ≤ 45) → ¬(3 ≤ ratio ∧ ratio < 5 ∧ rsi ≤ 50) →
      ¬(3/2 ≤ ratio ∧ ratio < 3 ∧ 40 ≤ rsi ∧ rsi ≤ 55) →
      (4/5 ≤ ratio ∧ ratio < 3/2 ∧ 50 ≤ rsi) →
      classify_phase defaultConfig ratio rsi =
        ⟨"breakout", 6, "Breakout - Confirmed but Late"⟩) ∧
    (¬(5 ≤ ratio ∧ rsi ≤ 45) → ¬(3 ≤ ratio ∧ ratio < 5 ∧ rsi ≤ 50) →
      ¬(3/2 ≤ ratio ∧ ratio < 3 ∧ 40 ≤ rsi ∧ rsi ≤ 55) →
      ¬(4/5 ≤ ratio ∧ ratio < 3/2 ∧ 50 ≤ rsi) →
      classify_phase defaultConfig ratio rsi =
        ⟨"none", 0, "No Accumulation Detected"⟩) := by
  simp only [classify_phase, defaultConfig]
  refine ⟨?_, ?_, ?_, ?_, ?_⟩ <;> intros <;> split_ifs <;> simp_all

/-- Witness for C5: the four tier examples of the tests and a no-match pair. -/
theorem claim_C5_witness :
    classify_phase defaultConfig 6 42 = ⟨"early", 18, "Early Accumulation - Best Entry"⟩ ∧
    classify_phase defaultConfig 4 48 = ⟨"mid", 14, "Mid Accumulation - High Probability"⟩ ∧
    classify_phase defaultConfig 2 52 = ⟨"late", 10, "Late Accumulation - Setup Maturing"⟩ ∧
    classify_phase defaultConfig 1 60 = ⟨"breakout", 6, "Breakout - Confirmed but Late"⟩ ∧
    classify_phase defaultConfig (1/2) 40 = ⟨"none", 0, "No Accumulation Detected"⟩ := by
  refine ⟨(claim_C5 6 42).1 (by norm_num),
    (claim_C5 4 48).2.1 (by norm_num) (by norm_num),
    (claim_C5 2 52).2.2.1 (by norm_num) (by norm_num) (by norm_num),
    (claim_C5 1 60).2.2.2.1 (by norm_num) (by norm_num) (by norm_num) (by norm_num),
    (claim_C5 (1/2) 40).2.2.2.2 (by norm_num) (by norm_num) (by norm_num) (by norm_num)⟩

/-- The pandas `replace(0, 0.1)` denominator coincides with `max r 0.1` on a
natural count `r`. -/
theorem denom_eq_max (r : ℕ) :
    (if (r : ℚ) = 0 then (1 : ℚ) / 10 else (r : ℚ)) = max (r : ℚ) (1 / 10) := by
  rcases Nat.eq_zero_or_pos r with h | h
  · subst h
    simp
  · have h1 : (1 : ℚ) ≤ (r : ℚ) := by exact_mod_cast h
    rw [if_neg (by positivity), max_eq_left (le_trans (by norm_num) h1)]

/-- Lower clip bound. -/
theorem clip0to20_nonneg (x : ℚ) : 0 ≤ clip0to20 x :=
  le_min (le_max_right x 0) (by norm_num)

/-- Upper clip bound. -/
theorem clip0to20_le (x : ℚ) : clip0to20 x ≤ 20 := min_le_right _ _

/-- Value of the ratio column where both rolling counts are defined. -/
theorem accumulationRatioAt_eq (cfg : AnalyzerConfig) (w : ℕ) (rows : List Bar) (i : ℕ)
    (s r : ℕ) (hs : stochSignalsAt cfg w rows i = some s)
    (hr : rsiSignalsAt cfg w rows i = some r) :
    accumulationRatioAt cfg w rows i =
      some (clip0to20 (if s = 0 ∧ r = 0 then 0 else (s : ℚ) / max (r : ℚ) (1 / 10))) := by
  unfold accumulationRatioAt
  rw [hs, hr]
  show some (clip0to20
      (if s = 0 ∧ r = 0 then 0 else (s : ℚ) / (if (r : ℚ) = 0 then 1 / 10 else (r : ℚ)))) = _
  rw [denom_eq_max r]

/-- A defined ratio entry forces both rolling counts to be defined. -/
theorem accumulationRatioAt_some (cfg : AnalyzerConfig) (w : ℕ) (rows : List Bar) (i : ℕ)
    (v : ℚ) (h : accumulationRatioAt cfg w rows i = some v) :
    ∃ s r, stochSignalsAt cfg w rows i = some s ∧ rsiSignalsAt cfg w rows i = some r := by
  cases hs : stochSignalsAt cfg w rows i with
  | none => unfold accumulationRatioAt at h; rw [hs] at h; simp at h
  | some s =>
    cases hr : rsiSignalsAt cfg w rows i with
    | none => unfold accumulationRatioAt at h; rw [hs, hr] at h; simp at h
    | some r => exact ⟨s, r, rfl, rfl⟩

/-- The clipped ratio is zero exactly when the stoch count is zero. -/
theorem clip_ratio_zero_iff (s r : ℕ) :
    clip0to20 (if s = 0 ∧ r = 0 then 0 else (s : ℚ) / max (r : ℚ) (1 / 10)) = 0 ↔ s = 0 := by
  have hden : (0 : ℚ) < max (r : ℚ) (1 / 10) :=
    lt_of_lt_of_le (by norm_num) (le_max_right _ _)
  constructor
  · intro h
    by_contra hs
    have hs1 : (1 : ℚ) ≤ (s : ℚ) := by
      exact_mod_cast Nat.one_le_iff_ne_zero.mpr hs
    have hpos : 0 < (s : ℚ) / max (r : ℚ) (1 / 10) := div_pos (by linarith) hden
    rw [if_neg (by simp [hs])] at h
    unfold clip0to20 at h
    have hmin : 0 < min (max ((s : ℚ) / max (r : ℚ) (1 / 10)) 0) 20 :=
      lt_min (lt_of_lt_of_le hpos (le_max_left _ _)) (by norm_num)
    linarith
  · intro hs
    subst hs
    by_cases hr : r = 0
    · subst hr
      simp [clip0to20]
    · rw [if_neg (by simp [hr])]
      simp [clip0to20]

/-- Entry `i` of a column built by mapping over the row indices. -/
theorem getElem?_map_range {α : Type} (g : ℕ → α) (n i : ℕ) :
    ((List.range n).map g)[i]? = if i < n then some (g i) else none := by
  rcases Nat.lt_or_ge i n with h | h
  · rw [if_pos h, List.getElem?_map, List.getElem?_range h]
    rfl
  · rw [if_neg (Nat.not_lt.mpr h), List.getElem?_map, List.getElem?_eq_none (by simpa using h)]
    rfl

/-- A successful `calculate_ratio_series` call determines the output frame. -/
theorem calculate_ratio_series_ok (cfg : AnalyzerConfig) (f : Frame) (window : Option ℕ)
    (rf : RatioFrame) (hok : calculate_ratio_series cfg f window = Except.ok rf) :
    rf = { rows := f.rows
           stoch_signals := (List.range f.rows.length).map
             (stochSignalsAt cfg (window.getD cfg.window) f.rows)
           rsi_signals := (List.range f.rows.length).map
             (rsiSignalsAt cfg (window.getD cfg.window) f.rows)
           accumulation_ratio := (List.range f.rows.length).map
             (accumulationRatioAt cfg (window.getD cfg.window) f.rows) } := by
  unfold calculate_ratio_series at hok
  by_cases hm : missingCols f = []
  · rw [if_pos hm] at hok
    injection hok with h
    exact h.symm
  · rw [if_neg hm] at hok
    simp at hok

/-- Claim C4 (functional correctness of the ratio formula): for every bar of
the table returned by `calculate_ratio_series` whose rolling counts are
defined, the accumulation ratio equals stoch count divided by
`max(rsi count, 0.1)`, forced to 0 when both counts are 0, then clipped to
[0, 20]; consequently every computed ratio lies in [0, 20]. -/
theorem claim_C4 (cfg : AnalyzerConfig) (f : Frame) (window : Option ℕ) (rf : RatioFrame)
    (hw : 0 < window.getD cfg.window)
    (hok : calculate_ratio_series cfg f window = Except.ok rf) :
    (∀ (i s r : ℕ), rf.stoch_signals[i]? = some (some s) →
      rf.rsi_signals[i]? = some (some r) →
      rf.accumulation_ratio[i]? = some (some (clip0to20
        (if s = 0 ∧ r = 0 then 0 else (s : ℚ) / max (r : ℚ) (1 / 10))))) ∧
    (∀ (i : ℕ) (v : ℚ), rf.accumulation_ratio[i]? = some (some v) → 0 ≤ v ∧ v ≤ 20) := by
  have hrf := calculate_ratio_series_ok cfg f window rf hok
  subst hrf
  constructor
  · intro i s r hs hr
    rw [getElem?_map_range] at hs hr ⊢
    rcases Nat.lt_or_ge i f.rows.length with hi | hi
    · rw [if_pos hi] at hs hr ⊢
      have hs' : stochSignalsAt cfg (window.getD cfg.window) f.rows i = some s := by
        simpa using hs
      have hr' : rsiSignalsAt cfg (window.getD cfg.window) f.rows i = some r := by
        simpa using hr
      rw [accumulationRatioAt_eq cfg (window.getD cfg.window) f.rows i s r hs' hr']
    · rw [if_neg (Nat.not_lt.mpr hi)] at hs
      simp at hs
  · intro i v hv
    rw [getElem?_map_range] at hv
    rcases Nat.lt_or_ge i f.rows.length with hi | hi
    · rw [if_pos hi] at hv
      have hv' : accumulationRatioAt cfg (window.getD cfg.window) f.rows i = some v := by
        simpa using hv
      obtain ⟨s, r, hs, hr⟩ :=
        accumulationRatioAt_some cfg (window.getD cfg.window) f.rows i v hv'
      rw [accumulationRatioAt_eq cfg (window.getD cfg.window) f.rows i s r hs hr] at hv'
      have hveq : v = clip0to20
          (if s = 0 ∧ r = 0 then 0 else (s : ℚ) / max (r : ℚ) (1 / 10)) := by
        simpa using hv'.symm
      rw [hveq]
      exact ⟨clip0to20_nonneg _, clip0to20_le _⟩
    · rw [if_neg (Nat.not_lt.mpr hi)] at hv
      simp at hv

/-- Witness for C4 on the one-bar window-2 table with `stoch_rsi = 50` and
`rsi = 10`. -/
theorem claim_C4_witness :
    cexRatioFrame.accumulation_ratio[0]? = some (some (clip0to20
      (if (0 : ℕ) = 0 ∧ (1 : ℕ) = 0 then 0
       else ((0 : ℕ) : ℚ) / max ((1 : ℕ) : ℚ) (1 / 10)))) ∧
    (0 ≤ (0 : ℚ) ∧ (0 : ℚ) ≤ 20) := by
  have h := claim_C4 defaultConfig ⟨true, true, [⟨50, 10⟩]⟩ (some 2) cexRatioFrame
    (by norm_num) cex_calc_eq
  exact ⟨h.1 0 0 1 (by decide) (by decide), h.2 0 0 (by decide)⟩

/-- Counterexample to claim C1 as stated: on the one-bar window-2 table with
`stoch_rsi = 50` (never oversold) and `rsi = 10` (always oversold), the
returned bar has accumulation ratio exactly 0 while the signal counts are
(0, 1), not both 0 — so "ratio is 0 iff both counts are 0" fails. -/
theorem claim_C1_cex :
    calculate_ratio_series defaultConfig ⟨true, true, [⟨50, 10⟩]⟩ (some 2) =
      Except.ok cexRatioFrame ∧
    cexRatioFrame.accumulation_ratio[0]? = some (some 0) ∧
    ¬ (cexRatioFrame.stoch_signals[0]? = some (some 0) ∧
       cexRatioFrame.rsi_signals[0]? = some (some 0)) := by
  refine ⟨cex_calc_eq, by decide, ?_⟩
  intro h
  have := h.2
  simp [cexRatioFrame] at this

/-- Claim C1, amended: in the table returned by `calculate_ratio_series`, a
bar's accumulation ratio is exactly 0 iff that bar's `stoch_signals` count is
0 (both counts being 0 is sufficient but not necessary). -/
theorem claim_C1 (cfg : AnalyzerConfig) (f : Frame) (window : Option ℕ) (rf : RatioFrame)
    (hok : calculate_ratio_series cfg f window = Except.ok rf) (i : ℕ) (v : ℚ)
    (hv : rf.accumulation_ratio[i]? = some (some v)) :
    v = 0 ↔ rf.stoch_signals[i]? = some (some 0) := by
  have hrf := calculate_ratio_series_ok cfg f window rf hok
  subst hrf
  rw [getElem?_map_range] at hv
  rcases Nat.lt_or_ge i f.rows.length with hi | hi
  · rw [if_pos hi] at hv
    have hv' : accumulationRatioAt cfg (window.getD cfg.window) f.rows i = some v := by
      simpa using hv
    obtain ⟨s, r, hs, hr⟩ :=
      accumulationRatioAt_some cfg (window.getD cfg.window) f.rows i v hv'
    rw [accumulationRatioAt_eq cfg (window.getD cfg.window) f.rows i s r hs hr] at hv'
    have hveq : v = clip0to20
        (if s = 0 ∧ r = 0 then 0 else (s : ℚ) / max (r : ℚ) (1 / 10)) := by
      simpa using hv'.symm
    rw [getElem?_map_range, if_pos hi, hs, hveq, clip_ratio_zero_iff s r]
    simp
  · rw [if_neg (Nat.not_lt.mpr hi)] at hv
    simp at hv

/-- Witness for the amended C1 on the concrete window-2 table. -/
theorem claim_C1_witness :
    (0 : ℚ) = 0 ↔ cexRatioFrame.stoch_signals[0]? = some (some 0) :=
  claim_C1 defaultConfig ⟨true, true, [⟨50, 10⟩]⟩ (some 2) cexRatioFrame cex_calc_eq 0 0
    (by decide)

/-- Claim C3: the grade of a Score is a function of `total_points` alone,
assigned by closed-lower-bound bands: [80,100] Excellent, [65,80) Strong,
[50,65) Good, below 50 Weak; in particular 80 gives Excellent, 65 Strong,
50 Good and 49 Weak. -/
theorem claim_C3 :
    (∀ s t : SABR20Score, s.total_points = t.total_points → setup_grade s = setup_grade t) ∧
    (∀ s : SABR20Score, 80 ≤ s.total_points → s.total_points ≤ 100 →
      setup_grade s = "Excellent") ∧
    (∀ s : SABR20Score, 65 ≤ s.total_points → s.total_points < 80 →
      setup_grade s = "Strong") ∧
    (∀ s : SABR20Score, 50 ≤ s.total_points → s.total_points < 65 →
      setup_grade s = "Good") ∧
    (∀ s : SABR20Score, s.total_points < 50 → setup_grade s = "Weak") ∧
    setup_grade ⟨"T", 80, []⟩ = "Excellent" ∧ setup_grade ⟨"T", 65, []⟩ = "Strong" ∧
    setup_grade ⟨"T", 50, []⟩ = "Good" ∧ setup_grade ⟨"T", 49, []⟩ = "Weak" := by
  refine ⟨?_, ?_, ?_, ?_, ?_, ?_, ?_, ?_, ?_⟩ <;>
    first
      | (intro s t h; unfold setup_grade; rw [h])
      | (intro s h1 h2; unfold setup_grade; split_ifs <;> first | rfl | linarith)
      | (intro s h1; unfold setup_grade; split_ifs <;> first | rfl | linarith)
      | (unfold setup_grade; norm_num)

/-- Witness for C3 at concrete Scores on every band. -/
theorem claim_C3_witness :
    setup_grade ⟨"W", 90, []⟩ = setup_grade ⟨"X", 90, [("setup_strength", 20)]⟩ ∧
    setup_grade ⟨"X", 90, []⟩ = "Excellent" ∧ setup_grade ⟨"X", 70, []⟩ = "Strong" ∧
    setup_grade ⟨"X", 55, []⟩ = "Good" ∧ setup_grade ⟨"X", 10, []⟩ = "Weak" := by
  refine ⟨claim_C3.1 ⟨"W", 90, []⟩ ⟨"X", 90, [("setup_strength", 20)]⟩ rfl,
    claim_C3.2.1 ⟨"X", 90, []⟩ (by norm_num) (by norm_num),
    claim_C3.2.2.1 ⟨"X", 70, []⟩ (by norm_num) (by norm_num),
    claim_C3.2.2.2.1 ⟨"X", 55, []⟩ (by norm_num) (by norm_num),
    claim_C3.2.2.2.2.1 ⟨"X", 10, []⟩ (by norm_num)⟩

/-- Claim C9: in component 1, a latest `bb_position` of exactly 0.10 scores
the 10-point BB tier (boundary inclusive) while a latest `stoch_rsi` of
exactly 10.0 scores the 7-point tier, not the 10-point tier (boundary
exclusive); `bb_position = 0.05` with `stoch_rsi = 8` scores the full 20
points. -/
theorem claim_C9 :
    bbPoints (1/10) = 10 ∧ stochPoints 10 = 7 ∧ ¬ stochPoints 10 = 10 ∧
    component_1_setup_strength (some (1/20)) (some 8) = 20 ∧
    component_1_setup_strength (some (1/10)) (some 100) = 10 ∧
    component_1_setup_strength (some 1) (some 10) = 7 := by
  refine ⟨?_, ?_, ?_, ?_, ?_, ?_⟩ <;>
    simp [bbPoints, stochPoints, component_1_setup_strength] <;> norm_num

/-- Claim C7: `analyze` never raises; a None/empty table, a missing required
column, or a failing step (undefined rolling counts at the latest bar, where
the `int(NaN)` conversions raise into the catch-all) each yield the neutral
default with phase `none`, 0 points and rsi 50; otherwise the result is the
classification of the latest bar of the ratio series. -/
theorem claim_C7 (cfg : AnalyzerConfig) (df : Option Frame) :
    (df = none → analyze cfg df = emptyResult) ∧
    (∀ f : Frame, df = some f → f.rows = [] → analyze cfg df = emptyResult) ∧
    (∀ f : Frame, df = some f → (f.hasStochRsi = false ∨ f.hasRsi = false) →
      analyze cfg df = emptyResult) ∧
    (∀ f : Frame, df = some f →
      accumulationRatioAt cfg cfg.window f.rows (f.rows.length - 1) = none →
      analyze cfg df = emptyResult) ∧
    (∀ (f : Frame) (s r : ℕ) (v : ℚ), df = some f → f.rows ≠ [] →
      f.hasStochRsi = true → f.hasRsi = true →
      stochSignalsAt cfg cfg.window f.rows (f.rows.length - 1) = some s →
      rsiSignalsAt cfg cfg.window f.rows (f.rows.length - 1) = some r →
      accumulationRatioAt cfg cfg.window f.rows (f.rows.length - 1) = some v →
      analyze cfg df =
        { phase := (classify_phase cfg v ((f.rows.getLast?.getD ⟨0, 0⟩).rsi)).phase
          ratio := v
          points := (classify_phase cfg v ((f.rows.getLast?.getD ⟨0, 0⟩).rsi)).points
          description :=
            (classify_phase cfg v ((f.rows.getLast?.getD ⟨0, 0⟩).rsi)).description
          stoch_signals := s
          rsi_signals := r
          rsi := (f.rows.getLast?.getD ⟨0, 0⟩).rsi
          history := ((List.range f.rows.length).map
            (accumulationRatioAt cfg cfg.window f.rows)).drop (f.rows.length - 10) }) := by
  refine ⟨?_, ?_, ?_, ?_, ?_⟩
  · rintro rfl
    rfl
  · rintro f rfl hrows
    simp [analyze, hrows]
  · rintro f rfl hcols
    rcases hcols with h | h <;> simp [analyze, h]
  · rintro f rfl hnone
    by_cases hemp : f.rows.isEmpty
    · simp [analyze, hemp]
    · by_cases hsr : f.hasStochRsi = true
      · by_cases hri : f.hasRsi = true
        · cases hs : stochSignalsAt cfg cfg.window f.rows (f.rows.length - 1) with
          | none => simp [analyze, hemp, hsr, hri, hs]
          | some s =>
            cases hrr : rsiSignalsAt cfg cfg.window f.rows (f.rows.length - 1) with
            | none => simp [analyze, hemp, hsr, hri, hs, hrr]
            | some r =>
              rw [accumulationRatioAt_eq cfg cfg.window f.rows (f.rows.length - 1) s r
                hs hrr] at hnone
              simp at hnone
        · have hri' : f.hasRsi = false := by simpa using hri
          simp [analyze, hri']
      · have hsr' : f.hasStochRsi = false := by simpa using hsr
        simp [analyze, hsr']
  · rintro f s r v rfl hne hsr hri hs hrr hv
    have hemp : f.rows.isEmpty = false := by simpa [List.isEmpty_iff] using hne
    simp [analyze, hemp, hsr, hri, hs, hrr, hv]

/-- Witness for C7: a one-bar table under the window-2 configuration. -/
theorem claim_C7_witness :
    analyze smallConfig (some ⟨true, true, [⟨50, 10⟩]⟩) =
      ⟨"none", 0, 0, "No Accumulation Detected", 0, 1, 10, [some 0]⟩ := by
  have h := (claim_C7 smallConfig (some ⟨true, true, [⟨50, 10⟩]⟩)).2.2.2.2
    ⟨true, true, [⟨50, 10⟩]⟩ 0 1 0 rfl (by simp) rfl rfl
    (by norm_num [stochSignalsAt, rollingSum, stochFlag, smallConfig])
    (by norm_num [rsiSignalsAt, rollingSum, rsiFlag, smallConfig])
    (by norm_num [accumulationRatioAt, stochSignalsAt, rsiSignalsAt, rollingSum, stochFlag,
      rsiFlag, clip0to20, smallConfig])
  rw [h]
  norm_num [classify_phase, smallConfig, List.range_succ, accumulationRatioAt,
    stochSignalsAt, rsiSignalsAt, rollingSum, stochFlag, rsiFlag, clip0to20]

/-- Claim C8: `batch_analyze` returns a result for each input symbol, in
input order; a symbol whose analysis raises (outcome `none`) is mapped to
the neutral default; every symbol's entry is computed from its own table
alone, and in the exception-free embedding it equals `analyze` of that
table. -/
theorem claim_C8 (cfg : AnalyzerConfig)
    (analyzeOutcome : Option Frame → Option AnalysisResult)
    (data : List (String × Option Frame)) :
    ((batch_analyze_with analyzeOutcome data).map Prod.fst = data.map Prod.fst) ∧
    (∀ i : ℕ, (batch_analyze_with analyzeOutcome data)[i]? =
      (data[i]?).map (fun p => (p.1, (analyzeOutcome p.2).getD emptyResult))) ∧
    (∀ (sym : String) (t : Option Frame), (sym, t) ∈ data → analyzeOutcome t = none →
      (sym, emptyResult) ∈ batch_analyze_with analyzeOutcome data) ∧
    (∀ i : ℕ, (batch_analyze cfg data)[i]? =
      (data[i]?).map (fun p => (p.1, analyze cfg p.2))) := by
  refine ⟨?_, ?_, ?_, ?_⟩
  · simp [batch_analyze_with, List.map_map, Function.comp]
  · intro i
    simp [batch_analyze_with, List.getElem?_map]
  · intro sym t hmem hnone
    have h := List.mem_map_of_mem
      (fun p : String × Option Frame => (p.1, (analyzeOutcome p.2).getD emptyResult)) hmem
    simpa [batch_analyze_with, hnone] using h
  · intro i
    simp [batch_analyze, batch_analyze_with, List.getElem?_map]

/-- Witness for C8: one raising symbol maps to the neutral default. -/
theorem claim_C8_witness :
    ("A", emptyResult) ∈ batch_analyze_with (fun _ => none) [("A", (none : Option Frame))] :=
  (claim_C8 defaultConfig (fun _ => none) [("A", none)]).2.2.1 "A" none (by simp) rfl

/-- Membership in `insertDesc`. -/
theorem mem_insertDesc (s a : SABR20Score) (l : List SABR20Score) :
    a ∈ insertDesc s l ↔ a = s ∨ a ∈ l := by
  induction l with
  | nil => simp [insertDesc]
  | cons t ts ih =>
    unfold insertDesc
    split_ifs with h
    · simp [List.mem_cons]
    · simp only [List.mem_cons, ih]
      tauto

/-- `insertDesc` preserves descending sortedness. -/
theorem insertDesc_sorted (s : SABR20Score) (l : List SABR20Score)
    (h : l.Pairwise (fun a b => b.total_points ≤ a.total_points)) :
    (insertDesc s l).Pairwise (fun a b => b.total_points ≤ a.total_points) := by
  induction l with
  | nil => simp [insertDesc]
  | cons t ts ih =>
    rw [List.pairwise_cons] at h
    obtain ⟨ht, hts⟩ := h
    unfold insertDesc
    split_ifs with hc
    · refine List.Pairwise.cons ?_ (List.Pairwise.cons ht hts)
      intro x hx
      rcases List.mem_cons.mp hx with rfl | hx'
      · exact hc
      · exact le_trans (ht x hx') hc
    · refine List.Pairwise.cons ?_ (ih hts)
      intro x hx
      rcases (mem_insertDesc s x ts).mp hx with rfl | hx'
      · exact le_of_lt (not_le.mp hc)
      · exact ht x hx'

/-- `sortDesc` sorts descending by `total_points`. -/
theorem sortDesc_sorted (l : List SABR20Score) :
    (sortDesc l).Pairwise (fun a b => b.total_points ≤ a.total_points) := by
  induction l with
  | nil => simp [sortDesc]
  | cons x xs ih => exact insertDesc_sorted x (sortDesc xs) ih

/-- `sortDesc` preserves membership. -/
theorem mem_sortDesc (a : SABR20Score) (l : List SABR20Score) :
    a ∈ sortDesc l ↔ a ∈ l := by
  induction l with
  | nil => simp [sortDesc]
  | cons x xs ih =>
    unfold sortDesc
    rw [mem_insertDesc]
    simp [ih]

/-- Counterexample to claim C2 as stated: with two 70-point candidates and
`min_score = 65`, `generate` returns both (each above threshold, within the
cap), and the result is not strictly descending by `total_points` — ties make
strict descent fail. -/
theorem claim_C2_cex :
    generate [⟨"X", 70, []⟩, ⟨"Y", 70, []⟩] 20 65 = [⟨"X", 70, []⟩, ⟨"Y", 70, []⟩] ∧
    ¬ (generate [⟨"X", 70, []⟩, ⟨"Y", 70, []⟩] 20 65).Pairwise
        (fun a b => b.total_points < a.total_points) := by
  have h : generate [⟨"X", 70, []⟩, ⟨"Y", 70, []⟩] 20 65 =
      [⟨"X", 70, []⟩, ⟨"Y", 70, []⟩] := by decide
  refine ⟨h, ?_⟩
  rw [h]
  intro hp
  have := (List.pairwise_cons.mp hp).1 ⟨"Y", 70, []⟩ (by simp)
  norm_num at this

/-- Claim C2, amended: every watchlist returned by `generate` has all entries
with `total_points` at least `min_score`, is sorted in non-increasing
(descending, ties allowed) order of `total_points`, and has length at most
`max_symbols`; over candidates scoring [85, 70, 60, 45] with `min_score = 65`
the result is exactly the 85- and 70-point Scores in that order. -/
theorem claim_C2 (scored : List SABR20Score) (max_symbols : ℕ) (min_score : ℚ) :
    (∀ s ∈ generate scored max_symbols min_score, min_score ≤ s.total_points) ∧
    (generate scored max_symbols min_score).Pairwise
      (fun a b => b.total_points ≤ a.total_points) ∧
    (generate scored max_symbols min_score).length ≤ max_symbols ∧
    generate [⟨"A", 85, []⟩, ⟨"B", 70, []⟩, ⟨"C", 60, []⟩, ⟨"D", 45, []⟩] 20 65 =
      [⟨"A", 85, []⟩, ⟨"B", 70, []⟩] := by
  refine ⟨?_, ?_, ?_, by decide⟩
  · intro s hs
    have h1 := List.take_subset _ _ hs
    have h2 := (mem_sortDesc s _).mp h1
    simpa using (List.mem_filter.mp h2).2
  · exact List.Pairwise.sublist (List.take_sublist _ _) (sortDesc_sorted _)
  · rw [generate, List.length_take]
    exact min_le_left _ _

/-- Witness for C2: the 85-point entry of the concrete watchlist clears the
threshold. -/
theorem claim_C2_witness :
    (65 : ℚ) ≤ (⟨"A", 85, []⟩ : SABR20Score).total_points :=
  (claim_C2 [⟨"A", 85, []⟩] 20 65).1 ⟨"A", 85, []⟩ (by decide)

/-- Claim C6: the parallel batch scorer returns exactly the Scores of the
symbols whose individual scoring produced a non-None result; a raising or
None symbol is omitted without affecting any sibling symbol; the empty input
yields the empty output; the result does not depend on `max_workers`; and on
['A', 'B', 'C'] with B's loader raising it returns exactly the A and C
Scores, for `max_workers` 1, 2 and 4. -/
theorem claim_C6 (score_candidate : String → ScoreOutcome) (symbols : List String)
    (mw mw' : ℕ) :
    score_candidates_parallel score_candidate [] mw = [] ∧
    (∀ sc : SABR20Score, sc ∈ score_candidates_parallel score_candidate symbols mw ↔
      ∃ sym ∈ symbols, collectOutcome (score_candidate sym) = some sc) ∧
    score_candidates_parallel score_candidate symbols mw =
      score_candidates_parallel score_candidate symbols mw' ∧
    (∀ (pre post : List String) (b : String), collectOutcome (score_candidate b) = none →
      score_candidates_parallel score_candidate (pre ++ b :: post) mw =
        score_candidates_parallel score_candidate (pre ++ post) mw) ∧
    (score_candidates_parallel demoScorer ["A", "B", "C"] 1 =
        [⟨"A", 70, []⟩, ⟨"C", 70, []⟩] ∧
      score_candidates_parallel demoScorer ["A", "B", "C"] 2 =
        [⟨"A", 70, []⟩, ⟨"C", 70, []⟩] ∧
      score_candidates_parallel demoScorer ["A", "B", "C"] 4 =
        [⟨"A", 70, []⟩, ⟨"C", 70, []⟩]) := by
  refine ⟨rfl, ?_, rfl, ?_, by decide, by decide, by decide⟩
  · intro sc
    simp [score_candidates_parallel, List.mem_filterMap]
  · intro pre post b hb
    simp [score_candidates_parallel, List.filterMap_append, List.filterMap_cons, hb]

/-- Witness for C6: dropping the raising symbol B leaves the sibling results
unchanged. -/
theorem claim_C6_witness :
    score_candidates_parallel demoScorer (["A"] ++ "B" :: ["C"]) 2 =
      score_candidates_parallel demoScorer (["A"] ++ ["C"]) 2 :=
  (claim_C6 demoScorer ["A"] 2 2).2.2.2.1 ["A"] ["C"] "B" (by decide)

end GoblinForge
